import Mathlib

/-!
Verification of the MindFire js-sdk repository: the identity/event-tracking
pixel SDK (src/pixel.js, src/public/pixel-v030-stg.js, first document) and the
VoiceChatComponent web component (src/public/pixel-v030-stg.js, second
document), together with the v0.7.0 data/history feature whose exact code is
given as literal snippets in src/specs/voice-chat-component-v070-spec.md.

JavaScript values are embedded shallowly as an inductive type with the
truthiness and typeof semantics the component relies on; the component state
is a record, and the asynchronous startConversation is a small-step machine
whose suspension points are its await boundaries.
-/

/-- Shallow embedding of the JavaScript values the SDK manipulates. Arrays are
kept separate from plain objects because the history setter consults
Array.isArray. -/
inductive JSValue where
  | undef
  | null
  | boolV (b : Bool)
  | numV (n : Int)
  | strV (s : String)
  | objV (fields : List (String × JSValue))
  | arrV (elems : List JSValue)

/-- JavaScript typeof, restricted to the embedded values. typeof null is
the string "object", as in the language. -/
def jsTypeof : JSValue → String
  | JSValue.undef => "undefined"
  | JSValue.null => "object"
  | JSValue.boolV _ => "boolean"
  | JSValue.numV _ => "number"
  | JSValue.strV _ => "string"
  | JSValue.objV _ => "object"
  | JSValue.arrV _ => "object"

/-- JavaScript truthiness: undefined, null, false, 0 and the empty string are
falsy; every object and array is truthy. -/
def truthy : JSValue → Bool
  | JSValue.undef => false
  | JSValue.null => false
  | JSValue.boolV b => b
  | JSValue.numV n => n != 0
  | JSValue.strV s => s != ""
  | JSValue.objV _ => true
  | JSValue.arrV _ => true

/-- Array.isArray. -/
def isArrayV : JSValue → Bool
  | JSValue.arrV _ => true
  | _ => false

/-- Discriminator for the value null (the JavaScript strict comparison
value === null). -/
def isNullV : JSValue → Bool
  | JSValue.null => true
  | _ => false

/-- Discriminator for the value undefined (the JavaScript strict comparison
value === undefined). -/
def isUndefV : JSValue → Bool
  | JSValue.undef => true
  | _ => false

/-- Escape of one character inside a JSON string literal, as produced by
JSON.stringify. -/
def escapeChar (c : Char) : String :=
  if c = '\"' then "\\\""
  else if c = '\\' then "\\\\"
  else if c = '\n' then "\\n"
  else String.singleton c

/-- Escape of a whole string inside a JSON string literal. -/
def escapeString (s : String) : String :=
  String.join (s.toList.map escapeChar)

mutual

/-- JSON.stringify on the embedded values. The component only ever serializes
objects and arrays (the validated setters enforce this), so the undefined case
is mapped to the string "null" merely to keep the function total. -/
def jsonStringify : JSValue → String
  | JSValue.undef => "null"
  | JSValue.null => "null"
  | JSValue.boolV b => if b then "true" else "false"
  | JSValue.numV n => toString n
  | JSValue.strV s => "\"" ++ escapeString s ++ "\""
  | JSValue.objV fields => "\x7b" ++ jsonObjFields fields ++ "\x7d"
  | JSValue.arrV elems => "[" ++ jsonArrElems elems ++ "]"

/-- Comma-separated serialization of the fields of a JSON object. -/
def jsonObjFields : List (String × JSValue) → String
  | [] => ""
  | [(k, v)] => "\"" ++ escapeString k ++ "\":" ++ jsonStringify v
  | (k, v) :: rest =>
      "\"" ++ escapeString k ++ "\":" ++ jsonStringify v ++ "," ++ jsonObjFields rest

/-- Comma-separated serialization of the elements of a JSON array. -/
def jsonArrElems : List JSValue → String
  | [] => ""
  | [v] => jsonStringify v
  | v :: rest => jsonStringify v ++ "," ++ jsonArrElems rest

end

/-- Number of keys Object.keys returns for a value: the field names of an
object, the indices of an array, the indices of a string, and none for other
primitives. -/
def jsObjectKeysLength : JSValue → Nat
  | JSValue.objV fields => fields.length
  | JSValue.arrV elems => elems.length
  | JSValue.strV s => s.length
  | _ => 0

/-- Warning text of the data setter, from the setter snippet in
src/specs/voice-chat-component-v070-spec.md (identical in shape to the
visitorInfo setter at src/public/pixel-v030-stg.js lines 453 to 467). -/
def dataWarning (v : JSValue) : String :=
  "Failed to set data: value must be an object. Received type: " ++ jsTypeof v

/-- Modelled from the spec: the v0.7.0 component file is not under src/; this
is the literal set data(value) snippet of
src/specs/voice-chat-component-v070-spec.md (Feature 1, location 4), which is
the visitorInfo setter of src/public/pixel-v030-stg.js lines 453 to 467 with
the name changed. Returns the new backing field value and the list of console
warnings emitted. The acceptance test is
value && typeof value === "object" && value !== null, and the warning is
guarded by if (value), so only truthy rejected values warn. -/
def setData (value : JSValue) : JSValue × List String :=
  if truthy value && (jsTypeof value == "object") && !(isNullV value) then
    (value, [])
  else
    (JSValue.objV [], if truthy value then [dataWarning value] else [])

/-- Warning text of the history setter, from the setter snippet in
src/specs/voice-chat-component-v070-spec.md. -/
def historyWarning (v : JSValue) : String :=
  "Failed to set history: value must be an object or array. Received type: " ++ jsTypeof v

/-- Modelled from the spec: the v0.7.0 component file is not under src/; this
is the literal set history(value) snippet of
src/specs/voice-chat-component-v070-spec.md (Feature 2, change 3). The
acceptance test is value && (typeof value === "object" || Array.isArray(value)),
and the warning is guarded by value !== null && value !== undefined, so every
defined non-null rejected value warns, falsy or not. -/
def setHistory (value : JSValue) : JSValue × List String :=
  if truthy value && ((jsTypeof value == "object") || isArrayV value) then
    (value, [])
  else
    (JSValue.null,
      if !(isNullV value) && !(isUndefV value) then [historyWarning value] else [])

/-- The data getter: this underscore data field read through the expression
this._data || \x7b\x7d, per the get data() snippet of
src/specs/voice-chat-component-v070-spec.md. -/
def getData (dataField : JSValue) : JSValue :=
  if truthy dataField then dataField else JSValue.objV []

/-- The history getter: the expression this._history || null, per the
get history() snippet of src/specs/voice-chat-component-v070-spec.md. -/
def getHistory (historyField : JSValue) : JSValue :=
  if truthy historyField then historyField else JSValue.null

/-- Agent configuration JSON as fetched from the configuration endpoint.
Option models an absent field; required-field validation in the code is the
JavaScript falsiness test !data.name || !data.voice, so the empty string also
counts as missing. is_active is some b when the field holds the boolean b and
none when it is absent (or holds a non-boolean value, which the strict
comparison is_active === false treats identically). -/
structure AgentConfigData where
  is_active : Option Bool
  name : Option String
  voice : Option String
  instructions : String
  has_file_search : Bool
  vector_store_id : Option String
deriving DecidableEq, Repr

/-- JavaScript falsiness of an optional string field: absent or empty. -/
def strFalsy : Option String → Bool
  | none => true
  | some s => s == ""

/-- State of one VoiceChatComponent instance, from _initializeState at
src/public/pixel-v030-stg.js lines 300 to 323, plus the UI facts the claims
mention (modal shown, inline permission message, display none) and two ghost
instrumentation fields: sessionsCreated counts RealtimeSession constructions
and nextSessionId names them, so that the mutual-exclusion claim about "at
most one session object" is observable. -/
structure Widget where
  isDestroyed : Bool
  agentId : Option String
  isConfigLoaded : Bool
  agentConfig : Option AgentConfigData
  dataField : JSValue
  historyField : JSValue
  session : Option Nat
  agent : Option Nat
  sessionConnected : Bool
  isMuted : Bool
  isAgentSpeaking : Bool
  originalGetUserMedia : Bool
  capturedStream : Bool
  modalShown : Bool
  permissionMessage : String
  displayNone : Bool
  sessionsCreated : Nat
  nextSessionId : Nat

/-- The state _initializeState establishes, with the agent id already read
from the attribute by connectedCallback (src lines 368 to 382); the v0.7.0
snippet initializes the data field to an empty object and the history field
to null. -/
def initialWidget (agentId : Option String) : Widget :=
  { isDestroyed := false
    agentId := agentId
    isConfigLoaded := false
    agentConfig := none
    dataField := JSValue.objV []
    historyField := JSValue.null
    session := none
    agent := none
    sessionConnected := false
    isMuted := false
    isAgentSpeaking := false
    originalGetUserMedia := false
    capturedStream := false
    modalShown := false
    permissionMessage := ""
    displayNone := false
    sessionsCreated := 0
    nextSessionId := 0 }

/-- hideComponent (src lines 563 to 567): sets style.display to none. -/
def hideComponent (w : Widget) : Widget :=
  { w with displayNone := true }

/-- _processAgentConfiguration (src lines 526 to 550). Returns an error for
the thrown missing-required-fields exception, which the caller catches. The
active check is the strict comparison data.is_active === false. -/
def processAgentConfiguration (w : Widget) (d : AgentConfigData) :
    Except String Widget :=
  if d.is_active == some false then
    Except.ok (hideComponent w)
  else if strFalsy d.name || strFalsy d.voice then
    Except.error ("Invalid agent configuration: missing required fields")
  else
    Except.ok { w with agentConfig := some d, isConfigLoaded := true }

/-- Outcome of the configuration fetch _fetchAgentConfiguration (src lines
500 to 518): an error covers a network failure, the 10 second AbortSignal
timeout, a non-ok HTTP status and a JSON parse failure; ok carries the parsed
body, which loadAgentConfiguration then tests for truthiness (none models a
null body). -/
def FetchOutcome : Type := Except String (Option AgentConfigData)

/-- loadAgentConfiguration (src lines 473 to 492). Returns the new widget
state together with the list of events emitted to host listeners; no branch
of this code calls _emit, so that list is empty in every branch. -/
def loadAgentConfiguration (w : Widget) (fetched : FetchOutcome) :
    Widget × List String :=
  if w.agentId == none || w.isDestroyed then (w, [])
  else
    match fetched with
    | Except.error _ => (hideComponent w, [])
    | Except.ok none => (hideComponent w, [])
    | Except.ok (some d) =>
        match processAgentConfiguration w d with
        | Except.ok w2 => (w2, [])
        | Except.error _ => (hideComponent w, [])

/-- stopConversation (src lines 1687 to 1750): close and drop the session and
agent, stop and drop the captured stream, restore the patched getUserMedia,
hide the modal, reset the mute state and mute button, clear the inline
message, mark disconnected and stop the sound wave. The whole body is inside
try/catch and none of these steps can throw in the model, so the function is
total. -/
def stopConversation (w : Widget) : Widget :=
  let w1 := match w.session with
    | some _ => { w with session := none, agent := none }
    | none => w
  let w2 := if w1.capturedStream then { w1 with capturedStream := false } else w1
  let w3 := if w2.originalGetUserMedia then { w2 with originalGetUserMedia := false } else w2
  { w3 with modalShown := false
            isMuted := false
            permissionMessage := ""
            sessionConnected := false
            isAgentSpeaking := false }

/-- cleanup (src lines 396 to 419), run by disconnectedCallback: marks the
widget destroyed, closes the session, stops the stream, restores getUserMedia.
It does not touch the UI fields. -/
def cleanup (w : Widget) : Widget :=
  let w0 := { w with isDestroyed := true }
  let w1 := match w0.session with
    | some _ => { w0 with session := none }
    | none => w0
  let w2 := if w1.capturedStream then { w1 with capturedStream := false } else w1
  if w2.originalGetUserMedia then { w2 with originalGetUserMedia := false } else w2

/-- _emit (src lines 356 to 366): returns the list of events dispatched to
host listeners, which is empty when the widget is destroyed. -/
def emitEvents (w : Widget) (eventType : String) : List String :=
  if w.isDestroyed then [] else [eventType]

/-- One event received from the transport; the payload beyond the type tag is
opaque to the relay. -/
structure TransportEvent where
  type : String
  transcript : String

/-- The transport wildcard handler installed by _setupSessionEventHandlers
(src lines 1599 to 1643): bail out when destroyed, relay the event under its
original name via _emit, then drive local state for the small set of types the
switch handles. Returns the new state and the events dispatched to host
listeners. -/
def relayTransportEvent (w : Widget) (e : TransportEvent) :
    Widget × List String :=
  if w.isDestroyed then (w, [])
  else
    let emitted := emitEvents w e.type
    let w2 :=
      if e.type == "session.created" then { w with sessionConnected := true }
      else if e.type == "output_audio_buffer.started" then { w with isAgentSpeaking := true }
      else if e.type == "output_audio_buffer.stopped" then { w with isAgentSpeaking := false }
      else if e.type == "error" then
        { w with sessionConnected := false
                 permissionMessage := "Connection error. Please try again." }
      else w
    (w2, emitted)

/-- Relays a whole sequence of transport events in order, collecting every
event dispatched to host listeners. -/
def processTransportEvents (w : Widget) : List TransportEvent → Widget × List String
  | [] => (w, [])
  | e :: rest =>
      let r := relayTransportEvent w e
      let r2 := processTransportEvents r.1 rest
      (r2.1, r.2 ++ r2.2)

/-- interceptGetUserMedia (src lines 1374 to 1389): installs the
monkey-patched capture function once, remembering the original. -/
def interceptGetUserMedia (w : Widget) : Widget :=
  if w.originalGetUserMedia then w else { w with originalGetUserMedia := true }

/-- True when the JavaScript string includes the given fragment
(String.prototype.includes). -/
def strIncludes (s frag : String) : Bool :=
  (s.splitOn frag).length != 1

/-- _handleConversationError (src lines 1650 to 1668): mark disconnected,
hide the modal, and show an inline message chosen by whether the error text
mentions permission or network. -/
def handleConversationError (w : Widget) (errMsg : String) : Widget :=
  let msg :=
    if strIncludes errMsg ("permission") then
      "Microphone permission is required for voice conversation."
    else if strIncludes errMsg ("network") then
      "Network error. Please check your connection and try again."
    else "Failed to start conversation. Please try again."
  { w with sessionConnected := false, modalShown := false, permissionMessage := msg }

/-- Phases of one startConversation invocation (src lines 1443 to 1530), cut
at its await suspension points: the guard and synchronous setup up to the
microphone-permission await, the resumption up to the ephemeral-key await, the
resumption that constructs the agent and session and assigns the session
field before the connect await, and the final resumption. -/
inductive StartPhase where
  | notStarted
  | awaitingMic
  | awaitingKey
  | connecting
  | done
deriving DecidableEq, Repr

/-- One atomic block of startConversation, parameterized by the outcomes of
the two awaited operations: micGranted is the result of
requestMicrophonePermission (src lines 1331 to 1348, which catches the denial
itself, shows the inline message and returns false) and keyOk tells whether
the ephemeral-key fetch succeeds. Returns the new widget state, the next
phase, and the events dispatched to host listeners; no branch of
startConversation calls _emit, so that list is empty everywhere. The guard at
line 1444 tests only isDestroyed and the session field; the session field is
assigned only in the awaitingKey block, after both awaits. -/
def stepStart (micGranted keyOk : Bool) (w : Widget) :
    StartPhase → Widget × StartPhase × List String
  | StartPhase.notStarted =>
      if w.isDestroyed || w.session.isSome then (w, StartPhase.done, [])
      else if !w.isConfigLoaded || w.agentConfig.isNone then
        (handleConversationError w ("Agent configuration not loaded"),
          StartPhase.done, [])
      else
        (interceptGetUserMedia { w with modalShown := true },
          StartPhase.awaitingMic, [])
  | StartPhase.awaitingMic =>
      if micGranted then
        ({ w with capturedStream := true, permissionMessage := "" },
          StartPhase.awaitingKey, [])
      else
        ({ w with permissionMessage := "Microphone access is required for voice conversation."
                  modalShown := false },
          StartPhase.done, [])
  | StartPhase.awaitingKey =>
      if keyOk then
        ({ w with agent := some w.nextSessionId
                  session := some w.nextSessionId
                  sessionsCreated := w.sessionsCreated + 1
                  nextSessionId := w.nextSessionId + 1 },
          StartPhase.connecting, [])
      else
        (handleConversationError w ("Error getting ephemeral key"),
          StartPhase.done, [])
  | StartPhase.connecting => (w, StartPhase.done, [])
  | StartPhase.done => (w, StartPhase.done, [])

/-- Runs one startConversation invocation to completion without interleaving,
collecting the events dispatched to host listeners. The fuel bound 5 exceeds
the longest phase chain. -/
def runStartAux (micGranted keyOk : Bool) :
    Nat → Widget → StartPhase → Widget × List String
  | 0, w, _ => (w, [])
  | Nat.succ n, w, p =>
      match p with
      | StartPhase.done => (w, [])
      | _ =>
          let r := stepStart micGranted keyOk w p
          let r2 := runStartAux micGranted keyOk n r.1 r.2.1
          (r2.1, r.2.2 ++ r2.2)

/-- A full uninterleaved startConversation call. -/
def startConversation (micGranted keyOk : Bool) (w : Widget) :
    Widget × List String :=
  runStartAux micGranted keyOk 5 w StartPhase.notStarted

/-- The session-lifecycle state the spec names: Idle when no session object
exists, Connected once the session.created relay marked the connection, else
Connecting. -/
inductive SessionState where
  | Idle
  | Connecting
  | Connected
deriving DecidableEq, Repr

/-- State-machine state of a widget: Idle without a session object, and with
one, Connected once the session.created relay has run, else Connecting. -/
def machineState (w : Widget) : SessionState :=
  match w.session with
  | none => SessionState.Idle
  | some _ =>
      if w.sessionConnected then SessionState.Connected else SessionState.Connecting

/-- Framing sentence placed before the serialized contextual data, from the
v0.7.0 _buildInstructions snippet. -/
def dataFraming : String :=
  "\n\nHere is some additional context for this conversation: "

/-- Framing sentence placed before the serialized conversation history, from
the v0.7.0 _buildInstructions snippet. -/
def historyFraming : String :=
  "\n\nThe following is the transcript of previous conversations you have had with this person. Use it to personalize your responses and avoid repeating yourself:\n"

/-- The line stating the current date that _buildInstructions appends. -/
def dateLine (dateStr : String) : String :=
  "\n\nToday\x27s date is " ++ dateStr

/-- Modelled from the spec: the v0.7.0 component file is not under src/; this
is the final-shape _buildInstructions snippet of
src/specs/voice-chat-component-v070-spec.md (Feature 2, change 4), which
extends _buildInstructions of src/public/pixel-v030-stg.js lines 1575 to 1593.
It throws when no agent configuration is loaded; otherwise it appends to the
base instructions the date line, then the data block when
this.data && Object.keys(this.data).length > 0 (reading through the getter),
then the history block when this.history !== null. -/
def buildInstructions (agentConfig : Option AgentConfigData) (dateStr : String)
    (dataField historyField : JSValue) : Except String String :=
  match agentConfig with
  | none => Except.error ("Agent configuration not loaded")
  | some cfg =>
      let ins0 := cfg.instructions ++ dateLine dateStr
      let dataV := getData dataField
      let ins1 :=
        if truthy dataV && (jsObjectKeysLength dataV != 0) then
          ins0 ++ dataFraming ++ jsonStringify dataV
        else ins0
      let historyV := getHistory historyField
      let ins2 :=
        if !(isNullV historyV) then
          ins1 ++ historyFraming ++ jsonStringify historyV
        else ins1
      Except.ok ins2

/-- Raw own properties that the host page may have placed on the DOM element
before the custom-element definition upgraded it; none means the page never
assigned the property. -/
structure PreUpgradeElement where
  dataOwn : Option JSValue
  historyOwn : Option JSValue

/-- The data and history backing fields of one component together with the
console warnings accumulated by the validated setters. -/
structure ComponentProps where
  dataField : JSValue
  historyField : JSValue
  warnings : List String

/-- The property state _initializeState establishes: data empty object,
history null, per the v0.7.0 snippets of
src/specs/voice-chat-component-v070-spec.md. -/
def initProps : ComponentProps :=
  { dataField := JSValue.objV [], historyField := JSValue.null, warnings := [] }

/-- Assignment through the validated data setter, accumulating warnings. -/
def assignData (s : ComponentProps) (v : JSValue) : ComponentProps :=
  let r := setData v
  { s with dataField := r.1, warnings := s.warnings ++ r.2 }

/-- Assignment through the validated history setter, accumulating warnings. -/
def assignHistory (s : ComponentProps) (v : JSValue) : ComponentProps :=
  let r := setHistory v
  { s with historyField := r.1, warnings := s.warnings ++ r.2 }

/-- _upgradeProperty for the data property (src/public/pixel-v030-stg.js
lines 331 to 337, called with "data" by the v0.7.0 constructor): when the
element has a raw own property, read it, delete it, and reassign it, which now
routes through the class setter. -/
def upgradePropertyData (own : Option JSValue) (s : ComponentProps) :
    ComponentProps :=
  match own with
  | none => s
  | some v => assignData s v

/-- _upgradeProperty for the history property, same mechanism. -/
def upgradePropertyHistory (own : Option JSValue) (s : ComponentProps) :
    ComponentProps :=
  match own with
  | none => s
  | some v => assignHistory s v

/-- The constructor path relevant to the properties: _initializeState, then
_upgradeProperty("data"), then _upgradeProperty("history"), per the v0.7.0
constructor snippets. -/
def constructComponent (el : PreUpgradeElement) : ComponentProps :=
  upgradePropertyHistory el.historyOwn (upgradePropertyData el.dataOwn initProps)

/-- The post-attachment path the spec compares against: construct with no
pre-set own properties, then apply the same assignments through the public
setters. This definition follows the words of the spec sentence, for the
refinement comparison. -/
def setAfterAttachment (dataV historyV : Option JSValue) : ComponentProps :=
  let s0 := constructComponent { dataOwn := none, historyOwn := none }
  let s1 := match dataV with
    | none => s0
    | some v => assignData s0 v
  match historyV with
  | none => s1
  | some v => assignHistory s1 v

/-- Configuration of two interleaved startConversation attempts on the same
widget: the shared widget state and the phase each attempt has reached. -/
structure TwoStartAttempts where
  w : Widget
  p1 : StartPhase
  p2 : StartPhase

/-- Advances one of the two attempts by one atomic block; false picks the
first attempt, true the second. The browser event loop serializes the blocks,
so an execution is a sequence of such choices. -/
def schedStep (micGranted keyOk : Bool) (c : TwoStartAttempts) (i : Bool) :
    TwoStartAttempts :=
  if i then
    let r := stepStart micGranted keyOk c.w c.p2
    { c with w := r.1, p2 := r.2.1 }
  else
    let r := stepStart micGranted keyOk c.w c.p1
    { c with w := r.1, p1 := r.2.1 }

/-- Runs a schedule of interleaved blocks of the two attempts. -/
def runSchedule (micGranted keyOk : Bool) (c : TwoStartAttempts) :
    List Bool → TwoStartAttempts
  | [] => c
  | i :: rest => runSchedule micGranted keyOk (schedStep micGranted keyOk c i) rest

/-- A ready widget: configuration loaded and active, no session, not
destroyed. -/
def readyConfig : AgentConfigData :=
  { is_active := some true
    name := some ("Ava")
    voice := some ("alloy")
    instructions := "Base instructions."
    has_file_search := false
    vector_store_id := none }

/-- A widget that has loaded its configuration and sits Idle. -/
def readyWidget : Widget :=
  { initialWidget (some ("agent-1")) with
      isConfigLoaded := true
      agentConfig := some readyConfig }

/-- The event payload record.addEvent submits to the events endpoint, after
it has filled in the missing shardKey. Optional fields model arguments the
caller may omit (JavaScript undefined). -/
structure SubmittedEvent where
  app_code : String
  event_code : String
  event_path : Option String
  event_element : Option String
  event_date : String
  event_data : Option JSValue
  no_duplicate : Option Bool
  shardKey : String

/-- The JavaScript expression a || b on an optional string: the default is
used when the value is absent or empty (both falsy). -/
def jsStrOr (v : Option String) (d : String) : String :=
  match v with
  | none => d
  | some s => if s == "" then d else s

/-- record.addEvent of both SDK copies (src/pixel.js lines 217 to 228,
src/public/pixel-v030-stg.js lines 119 to 130): adds the record shardKey when
the params carry none, then submits the params as the request body. The
params arrive here with their shardKey slot empty in both addNewRecord
variants, which never set one. -/
def addEventPayload (recordShardKey : String) (params : SubmittedEvent) :
    SubmittedEvent :=
  { params with shardKey := if params.shardKey == "" then recordShardKey else params.shardKey }

/-- record.addNewRecord of src/pixel.js lines 255 to 264 (production SDK,
positional arguments): submits an event with app_code "900", event_code
"99999", the given path and element, no_duplicate, and the current time as
event_date; the caller cannot supply an event_date at all. -/
def addNewRecordProd (recordShardKey : String)
    (event_path event_element : Option String) (no_duplicate : Bool)
    (nowIso : String) : SubmittedEvent :=
  addEventPayload recordShardKey
    { app_code := "900"
      event_code := "99999"
      event_path := event_path
      event_element := event_element
      event_date := nowIso
      event_data := none
      no_duplicate := some no_duplicate
      shardKey := "" }

/-- The params object accepted by the staging record.addNewRecord. Fields the
function ignores (such as a caller-supplied app_code or event_code) are
included to state that they are ignored. -/
structure NewRecordParams where
  app_code : Option String
  event_code : Option String
  event_path : Option String
  event_element : Option String
  event_date : Option String
  event_data : Option JSValue

/-- record.addNewRecord of src/public/pixel-v030-stg.js lines 160 to 169
(staging SDK, object argument): submits an event with app_code "900",
event_code "99999", the caller path, element and data, and
event_date || new Date().toISOString(). -/
def addNewRecordStg (recordShardKey : String) (params : NewRecordParams)
    (nowIso : String) : SubmittedEvent :=
  addEventPayload recordShardKey
    { app_code := "900"
      event_code := "99999"
      event_path := params.event_path
      event_element := params.event_element
      event_date := jsStrOr params.event_date nowIso
      event_data := params.event_data
      no_duplicate := none
      shardKey := "" }

/-- Helper: a destroyed widget stays destroyed through the transport relay and
the relay dispatches nothing. -/
theorem relayTransportEvent_destroyed (w : Widget) (e : TransportEvent)
    (h : w.isDestroyed = true) : relayTransportEvent w e = (w, []) := by
  simp [relayTransportEvent, h]

/-- Helper: relaying any event sequence from a destroyed widget dispatches no
event and keeps the widget destroyed. -/
theorem processTransportEvents_destroyed (es : List TransportEvent) :
    ∀ w : Widget, w.isDestroyed = true →
      (processTransportEvents w es).2 = [] ∧
      (processTransportEvents w es).1.isDestroyed = true := by
  induction es with
  | nil => intro w h; exact ⟨rfl, h⟩
  | cons e rest ih =>
      intro w h
      have hr : relayTransportEvent w e = (w, []) := relayTransportEvent_destroyed w e h
      have := ih w h
      simp [processTransportEvents, hr, this.1, this.2]

/-- Helper: cleanup marks the widget destroyed. -/
theorem cleanup_destroyed (w : Widget) : (cleanup w).isDestroyed = true := by
  rcases w with ⟨iD, aId, iCL, cfg, dF, hF, ses, ag, sC, iM, iAS, oG, cS, mS, pM, dN, sCr, nId⟩
  cases ses <;> cases oG <;> cases cS <;> rfl

/-- C9: once cleanup has run on widget detachment, no event is ever dispatched
to host listeners again: _emit returns nothing for a destroyed widget (src
lines 356 to 366) and the transport relay bails out on the destroyed flag
before emitting (src lines 1599 to 1643), and no relay step resets the flag. -/
theorem no_host_events_after_cleanup (w : Widget) (es : List TransportEvent)
    (eventType : String) :
    (processTransportEvents (cleanup w) es).2 = [] ∧
    emitEvents (cleanup w) eventType = [] := by
  have hd := cleanup_destroyed w
  exact ⟨(processTransportEvents_destroyed es (cleanup w) hd).1,
    by simp [emitEvents, hd]⟩

/-- C10: in both pixel SDK variants with record.addNewRecord (src/pixel.js
lines 255 to 264 and src/public/pixel-v030-stg.js lines 160 to 169), every
call submits an event whose app_code is exactly "900" and whose event_code is
exactly "99999", regardless of the caller-supplied arguments, and the
event_date defaults to the current time when not supplied (the production
variant has no event_date parameter at all and always stamps the current
time). -/
theorem addNewRecord_fixed_codes (recordShardKey : String)
    (event_path event_element : Option String) (no_duplicate : Bool)
    (params : NewRecordParams) (nowIso : String) :
    (addNewRecordProd recordShardKey event_path event_element no_duplicate nowIso).app_code = "900" ∧
    (addNewRecordProd recordShardKey event_path event_element no_duplicate nowIso).event_code = "99999" ∧
    (addNewRecordProd recordShardKey event_path event_element no_duplicate nowIso).event_date = nowIso ∧
    (addNewRecordStg recordShardKey params nowIso).app_code = "900" ∧
    (addNewRecordStg recordShardKey params nowIso).event_code = "99999" ∧
    (params.event_date = none →
      (addNewRecordStg recordShardKey params nowIso).event_date = nowIso) := by
  refine ⟨rfl, rfl, rfl, rfl, rfl, ?_⟩
  intro h
  simp [addNewRecordStg, addEventPayload, jsStrOr, h]

/-- Witness for C10 at concrete inputs: both variants stamp the fixed codes,
and the staging variant stamps the supplied current time when the caller
passes no event_date. -/
theorem addNewRecord_fixed_codes_witness :
    (addNewRecordProd ("jane") (some ("Direct Mail")) (some ("Promo")) true ("2026-02-24T00:00:00Z")).app_code = "900" ∧
    (addNewRecordStg ("jane")
      { app_code := some ("111"), event_code := some ("222"), event_path := some ("Direct Mail"),
        event_element := some ("Promo"), event_date := none, event_data := none }
      ("2026-02-24T00:00:00Z")).event_code = "99999" ∧
    (addNewRecordStg ("jane")
      { app_code := some ("111"), event_code := some ("222"), event_path := some ("Direct Mail"),
        event_element := some ("Promo"), event_date := none, event_data := none }
      ("2026-02-24T00:00:00Z")).event_date = "2026-02-24T00:00:00Z" := by
  refine ⟨?_, ?_, ?_⟩
  · exact (addNewRecord_fixed_codes ("jane") (some ("Direct Mail")) (some ("Promo")) true
      { app_code := some ("111"), event_code := some ("222"), event_path := some ("Direct Mail"),
        event_element := some ("Promo"), event_date := none, event_data := none }
      ("2026-02-24T00:00:00Z")).1
  · exact (addNewRecord_fixed_codes ("jane") (some ("Direct Mail")) (some ("Promo")) true
      { app_code := some ("111"), event_code := some ("222"), event_path := some ("Direct Mail"),
        event_element := some ("Promo"), event_date := none, event_data := none }
      ("2026-02-24T00:00:00Z")).2.2.2.2.1
  · exact (addNewRecord_fixed_codes ("jane") (some ("Direct Mail")) (some ("Promo")) true
      { app_code := some ("111"), event_code := some ("222"), event_path := some ("Direct Mail"),
        event_element := some ("Promo"), event_date := none, event_data := none }
      ("2026-02-24T00:00:00Z")).2.2.2.2.2 rfl

/-- C2 counterexample: the value 0 is defined, non-null and not an object, and
the claim predicts exactly one warning for it; the data setter resets the
property to the empty object but, because the warning is guarded by the
truthiness test if (value), emits no warning at all. -/
theorem setData_falsy_no_warning :
    isUndefV (JSValue.numV 0) = false ∧
    isNullV (JSValue.numV 0) = false ∧
    jsTypeof (JSValue.numV 0) ≠ "object" ∧
    (setData (JSValue.numV 0)).1 = JSValue.objV [] ∧
    (setData (JSValue.numV 0)).2 = [] ∧
    (setData (JSValue.numV 0)).2.length ≠ 1 := by
  refine ⟨rfl, rfl, ?_, rfl, rfl, ?_⟩
  · intro h
    exact absurd h (by decide)
  · intro h
    exact absurd h (by decide)

/-- C2 (amended): assigning a defined, non-null, non-object value v to the
data property leaves the property equal to the empty object, and emits exactly
one warning naming typeof v when v is truthy and no warning when v is falsy
(false, 0, empty string); assigning null or undefined resets to the empty
object silently; assigning a non-null object stores it verbatim. -/
theorem setData_validation (v : JSValue) :
    (isUndefV v = false → isNullV v = false → jsTypeof v ≠ "object" → truthy v = true →
      setData v = (JSValue.objV [], [dataWarning v])) ∧
    (isUndefV v = false → isNullV v = false → jsTypeof v ≠ "object" → truthy v = false →
      setData v = (JSValue.objV [], [])) ∧
    ((isNullV v = true ∨ isUndefV v = true) → setData v = (JSValue.objV [], [])) ∧
    (jsTypeof v = "object" → isNullV v = false → setData v = (v, [])) := by
  cases v <;>
    refine ⟨?_, ?_, ?_, ?_⟩ <;>
    · intros
      simp_all [setData, jsTypeof, truthy, isNullV, isUndefV]

/-- Witness for C2 at concrete inputs: the truthy string "hello" is rejected
with one warning naming its type, and a non-empty object is stored verbatim. -/
theorem setData_validation_witness :
    setData (JSValue.strV ("hello")) = (JSValue.objV [], [dataWarning (JSValue.strV ("hello"))]) ∧
    setData (JSValue.objV [("name", JSValue.strV ("Jane"))]) =
      (JSValue.objV [("name", JSValue.strV ("Jane"))], []) := by
  refine ⟨?_, ?_⟩
  · exact (setData_validation (JSValue.strV ("hello"))).1 rfl rfl (by decide) rfl
  · exact (setData_validation (JSValue.objV [("name", JSValue.strV ("Jane"))])).2.2.2 rfl rfl

/-- C3: the history property defaults to null; every object or array value
(including the empty ones) is stored verbatim with no warning; every defined,
non-null primitive value is rejected with exactly one warning naming its
typeof and leaves the property null. In the embedding a value is an object or
array exactly when its typeof is "object" and it is not the null value. -/
theorem setHistory_validation (v : JSValue) :
    getHistory (initProps.historyField) = JSValue.null ∧
    (jsTypeof v = "object" → isNullV v = false → setHistory v = (v, [])) ∧
    (jsTypeof v ≠ "object" → isUndefV v = false →
      setHistory v = (JSValue.null, [historyWarning v])) := by
  refine ⟨rfl, ?_, ?_⟩ <;>
    · intros
      cases v <;> simp_all [setHistory, jsTypeof, truthy, isNullV, isUndefV, isArrayV]

/-- Witness for C3 at concrete inputs: the empty array and the empty object
are stored verbatim without warning, and the falsy primitive 0 is rejected
with one warning naming the type number. -/
theorem setHistory_validation_witness :
    setHistory (JSValue.arrV []) = (JSValue.arrV [], []) ∧
    setHistory (JSValue.objV []) = (JSValue.objV [], []) ∧
    setHistory (JSValue.numV 0) = (JSValue.null, [historyWarning (JSValue.numV 0)]) := by
  refine ⟨?_, ?_, ?_⟩
  · exact (setHistory_validation (JSValue.arrV [])).2.1 rfl rfl
  · exact (setHistory_validation (JSValue.objV [])).2.1 rfl rfl
  · exact (setHistory_validation (JSValue.numV 0)).2.2 (by decide) rfl

/-- C4: _buildInstructions concatenates, in fixed order, the base
instructions, the date line, then (only when the data read through its getter
is truthy with a non-zero key count) the data framing sentence followed by the
JSON serialization of data, then (only when the history read through its
getter is not null) the history framing sentence followed by the JSON
serialization of history; so in every assembled result the data JSON appears
strictly before the history JSON, and assembly fails when no agent
configuration is loaded. -/
theorem buildInstructions_order (cfg : AgentConfigData) (dateStr : String)
    (dataField historyField : JSValue) :
    (truthy (getData dataField) = true → jsObjectKeysLength (getData dataField) ≠ 0 →
      isNullV (getHistory historyField) = false →
      buildInstructions (some cfg) dateStr dataField historyField =
        Except.ok ((((cfg.instructions ++ dateLine dateStr) ++ dataFraming ++
          jsonStringify (getData dataField)) ++ historyFraming ++
          jsonStringify (getHistory historyField)))) ∧
    ((truthy (getData dataField) = false ∨ jsObjectKeysLength (getData dataField) = 0) →
      isNullV (getHistory historyField) = false →
      buildInstructions (some cfg) dateStr dataField historyField =
        Except.ok ((cfg.instructions ++ dateLine dateStr) ++ historyFraming ++
          jsonStringify (getHistory historyField))) ∧
    (truthy (getData dataField) = true → jsObjectKeysLength (getData dataField) ≠ 0 →
      isNullV (getHistory historyField) = true →
      buildInstructions (some cfg) dateStr dataField historyField =
        Except.ok ((cfg.instructions ++ dateLine dateStr) ++ dataFraming ++
          jsonStringify (getData dataField))) ∧
    ((truthy (getData dataField) = false ∨ jsObjectKeysLength (getData dataField) = 0) →
      isNullV (getHistory historyField) = true →
      buildInstructions (some cfg) dateStr dataField historyField =
        Except.ok (cfg.instructions ++ dateLine dateStr)) ∧
    buildInstructions none dateStr dataField historyField =
      Except.error ("Agent configuration not loaded") := by
  refine ⟨?_, ?_, ?_, ?_, rfl⟩
  · intro h1 h2 h3
    simp [buildInstructions, h1, h2, h3]
  · intro h1 h3
    rcases h1 with h1 | h1 <;> simp [buildInstructions, h1, h3]
  · intro h1 h2 h3
    simp [buildInstructions, h1, h2, h3]
  · intro h1 h3
    rcases h1 with h1 | h1 <;> simp [buildInstructions, h1, h3]

/-- Witness for C4 at concrete inputs matching the spec scenario: with data
being the object mapping a to 1 and history the array holding the object
mapping x to 1, the assembled instructions contain the data JSON strictly
before the history JSON. -/
theorem buildInstructions_order_witness :
    buildInstructions (some readyConfig) ("2/24/2026")
      (JSValue.objV [("a", JSValue.numV 1)])
      (JSValue.arrV [JSValue.objV [("x", JSValue.numV 1)]]) =
      Except.ok ((((readyConfig.instructions ++ dateLine ("2/24/2026")) ++ dataFraming ++
        jsonStringify (getData (JSValue.objV [("a", JSValue.numV 1)]))) ++ historyFraming ++
        jsonStringify (getHistory (JSValue.arrV [JSValue.objV [("x", JSValue.numV 1)]])))) := by
  exact (buildInstructions_order readyConfig ("2/24/2026")
    (JSValue.objV [("a", JSValue.numV 1)])
    (JSValue.arrV [JSValue.objV [("x", JSValue.numV 1)]])).1 rfl (by decide) rfl

/-- C5: stopConversation is idempotent and leaves the widget Idle: running it
twice equals running it once, and after one run the session and agent handles
are gone, the captured stream is released, the original media-acquisition
function is restored, and the mute, connection and speaking indicators are
reset; the body is one try/catch over non-throwing steps, so no error is
raised for any starting state, including one with no session. -/
theorem stopConversation_idempotent_idle (w : Widget) :
    stopConversation (stopConversation w) = stopConversation w ∧
    (stopConversation w).session = none ∧
    (stopConversation w).capturedStream = false ∧
    (stopConversation w).originalGetUserMedia = false ∧
    (stopConversation w).isMuted = false ∧
    (stopConversation w).sessionConnected = false ∧
    (stopConversation w).isAgentSpeaking = false ∧
    machineState (stopConversation w) = SessionState.Idle := by
  rcases w with ⟨iD, aId, iCL, cfg, dF, hF, ses, ag, sC, iM, iAS, oG, cS, mS, pM, dN, sCr, nId⟩
  cases ses <;> cases oG <;> cases cS <;>
    exact ⟨rfl, rfl, rfl, rfl, rfl, rfl, rfl, rfl⟩

/-- C8: pre-attachment assignment equals post-attachment assignment: for any
raw own data and history values found on the element, the constructor path
(initialize defaults, then _upgradeProperty("data"), then
_upgradeProperty("history"), each rereading the raw value, deleting it and
reassigning through the class setter) produces exactly the component state of
constructing with no pre-set properties and then assigning the same values
through the public validated setters. -/
theorem upgrade_equals_post_attachment (el : PreUpgradeElement) :
    constructComponent el = setAfterAttachment el.dataOwn el.historyOwn := by
  rcases el with ⟨dOwn, hOwn⟩
  cases dOwn <;> cases hOwn <;> rfl

/-- C6 counterexample: the active check is the strict comparison
data.is_active === false, so a fetched configuration with the active flag
absent (and complete required fields) makes the widget ready even though its
active flag is not true, refuting the claim that only active = true yields a
ready widget. -/
theorem config_ready_without_active_true :
    (loadAgentConfiguration (initialWidget (some ("agent-1")))
      (Except.ok (some { is_active := none, name := some ("Ava"), voice := some ("alloy"),
                         instructions := "", has_file_search := false,
                         vector_store_id := none }))).1.isConfigLoaded = true ∧
    (loadAgentConfiguration (initialWidget (some ("agent-1")))
      (Except.ok (some { is_active := none, name := some ("Ava"), voice := some ("alloy"),
                         instructions := "", has_file_search := false,
                         vector_store_id := none }))).1.displayNone = false ∧
    ({ is_active := none, name := some ("Ava"), voice := some ("alloy"),
       instructions := "", has_file_search := false,
       vector_store_id := none } : AgentConfigData).is_active ≠ some true := by
  refine ⟨rfl, rfl, ?_⟩
  intro h
  exact absurd h (by decide)

/-- C6 (amended): configuration intake is fail-closed: when the fetch fails
(including the 10 second timeout), or the body is null, or the fetched
configuration has active strictly equal to false, or a required field (display
name or voice identifier) is missing or empty, the widget becomes hidden and
no event is emitted to host listeners; the widget becomes ready exactly when
the fetch succeeds with a configuration whose active flag is not strictly
false and whose required fields are present. -/
theorem configIntake_failClosed (w : Widget) (d : AgentConfigData) (msg : String)
    (hId : w.agentId.isSome = true) (hD : w.isDestroyed = false) :
    (loadAgentConfiguration w (Except.error msg) = (hideComponent w, [])) ∧
    (loadAgentConfiguration w (Except.ok none) = (hideComponent w, [])) ∧
    (d.is_active = some false →
      loadAgentConfiguration w (Except.ok (some d)) = (hideComponent w, [])) ∧
    (d.is_active ≠ some false → (strFalsy d.name = true ∨ strFalsy d.voice = true) →
      loadAgentConfiguration w (Except.ok (some d)) = (hideComponent w, [])) ∧
    (d.is_active ≠ some false → strFalsy d.name = false → strFalsy d.voice = false →
      loadAgentConfiguration w (Except.ok (some d)) =
        ({ w with agentConfig := some d, isConfigLoaded := true }, [])) := by
  have hguard : (w.agentId == none || w.isDestroyed) = false := by
    rcases hA : w.agentId with _ | a
    · rw [hA] at hId; exact absurd hId (by decide)
    · simp [hA, hD]
  refine ⟨?_, ?_, ?_, ?_, ?_⟩
  · simp [loadAgentConfiguration, hguard]
  · simp [loadAgentConfiguration, hguard]
  · intro h
    simp [loadAgentConfiguration, hguard, processAgentConfiguration, h]
  · intro h1 h2
    rcases h2 with h2 | h2 <;>
      simp [loadAgentConfiguration, hguard, processAgentConfiguration, h1, h2]
  · intro h1 h2 h3
    simp [loadAgentConfiguration, hguard, processAgentConfiguration, h1, h2, h3]

/-- Witness for C6 at concrete inputs: a failed fetch hides the freshly
attached widget with no event, and a successful fetch of the active, complete
configuration makes it ready. -/
theorem configIntake_failClosed_witness :
    (loadAgentConfiguration (initialWidget (some ("agent-1"))) (Except.error ("HTTP 500")) =
      (hideComponent (initialWidget (some ("agent-1"))), [])) ∧
    (loadAgentConfiguration (initialWidget (some ("agent-1"))) (Except.ok (some readyConfig)) =
      ({ initialWidget (some ("agent-1")) with
          agentConfig := some readyConfig
          isConfigLoaded := true }, [])) := by
  refine ⟨?_, ?_⟩
  · exact (configIntake_failClosed (initialWidget (some ("agent-1"))) readyConfig
      ("HTTP 500") rfl rfl).1
  · exact (configIntake_failClosed (initialWidget (some ("agent-1"))) readyConfig
      ("HTTP 500") rfl rfl).2.2.2.2 (by decide) rfl rfl

/-- C7: when microphone permission is denied during startConversation, the
start attempt aborts: the modal is hidden again, no session is created
(the widget stays Idle and the session-construction count is unchanged), the
inline permission message is shown, no event is dispatched to host listeners,
and since requestMicrophonePermission catches the rejection itself and the
whole body sits in try/catch, nothing propagates to the host page (the
embedded run is total). -/
theorem startConversation_mic_denied (w : Widget) (keyOk : Bool) (c : AgentConfigData)
    (hD : w.isDestroyed = false) (hS : w.session = none)
    (hC : w.isConfigLoaded = true) (hA : w.agentConfig = some c) :
    (startConversation false keyOk w).1.modalShown = false ∧
    (startConversation false keyOk w).1.session = none ∧
    machineState (startConversation false keyOk w).1 = SessionState.Idle ∧
    (startConversation false keyOk w).1.permissionMessage =
      "Microphone access is required for voice conversation." ∧
    (startConversation false keyOk w).1.sessionsCreated = w.sessionsCreated ∧
    (startConversation false keyOk w).2 = [] := by
  cases hO : w.originalGetUserMedia <;>
    simp [startConversation, runStartAux, stepStart, interceptGetUserMedia,
      machineState, hD, hS, hC, hA, hO]

/-- Witness for C7 at the ready widget: denying the microphone leaves the
modal closed, the session absent, the inline message set, and nothing
emitted. -/
theorem startConversation_mic_denied_witness :
    (startConversation false true readyWidget).1.modalShown = false ∧
    (startConversation false true readyWidget).1.session = none ∧
    machineState (startConversation false true readyWidget).1 = SessionState.Idle ∧
    (startConversation false true readyWidget).1.permissionMessage =
      "Microphone access is required for voice conversation." ∧
    (startConversation false true readyWidget).1.sessionsCreated =
      readyWidget.sessionsCreated ∧
    (startConversation false true readyWidget).2 = [] := by
  exact startConversation_mic_denied readyWidget true readyConfig rfl rfl rfl rfl

/-- C1 counterexample: the guard at the top of startConversation tests only
the session field, which is assigned after the microphone-permission and
credential awaits; in the interleaving where a second invocation runs its
guard while the first is still awaiting, both pass the guard and both
construct a RealtimeAgent/RealtimeSession pair, so two session objects are
constructed for one widget, refuting the claim that at most one session
object exists during the asynchronous steps. -/
theorem double_start_two_sessions :
    (runSchedule true true
      { w := readyWidget, p1 := StartPhase.notStarted, p2 := StartPhase.notStarted }
      [false, true, false, false, true, true]).w.sessionsCreated = 2 := by
  rfl

/-- C1 (amended): calling startConversation while this.session is already
non-null (or after destruction) is a no-op: the invocation returns at the
guard with the widget state unchanged, no second agent or transport
constructed and nothing emitted. The guard does not cover the asynchronous
window between invocation and the assignment of the session field, during
which a second invocation is not blocked. -/
theorem start_noop_when_session_live (micGranted keyOk : Bool) (w : Widget)
    (h : w.session.isSome = true ∨ w.isDestroyed = true) :
    startConversation micGranted keyOk w = (w, []) := by
  have hguard : (w.isDestroyed || w.session.isSome) = true := by
    rcases h with h | h <;> simp [h]
  simp [startConversation, runStartAux, stepStart, hguard]

/-- Witness for C1 at a concrete connected widget: invoking start again
changes nothing. -/
theorem start_noop_when_session_live_witness :
    startConversation true true { readyWidget with session := some 0 } =
      ({ readyWidget with session := some 0 }, []) := by
  exact start_noop_when_session_live true true { readyWidget with session := some 0 }
    (Or.inl rfl)
